import Mathlib

/-!
Shallow embedding of the ap_pipe repository (lsst/ap/pipe), covering
ap_pipe.py (pipeline driver functions over a filesystem state) and
selectImages.py (MaxPsfWcsSelectImagesTask.runDataRef).

External framework calls (ingest tasks, butlers, geometry primitives,
tar extraction) are abstracted as fields of environment structures;
everything the repository itself computes is translated directly.
-/

namespace ApPipe

/-- Filesystem state: the set of existing directories and regular files,
each named by its full path string. This models the on-disk state that
ap_pipe.py reads (os.path.exists, os.path.isdir, glob) and writes
(os.mkdir, open(...,w)). -/
structure FS where
  dirs : List String
  files : List String
deriving DecidableEq

/-- Model of os.path.isdir. -/
def FS.isDir (fs : FS) (p : String) : Bool :=
  fs.dirs.contains p

/-- Model of os.path.exists: true for directories and files alike. -/
def FS.pathExists (fs : FS) (p : String) : Bool :=
  fs.dirs.contains p || fs.files.contains p

/-- Model of os.mkdir: records the new directory. -/
def FS.mkdir (fs : FS) (p : String) : FS :=
  ⟨p :: fs.dirs, fs.files⟩

/-- Model of creating a regular file (open(path, w)). -/
def FS.writeFile (fs : FS) (p : String) : FS :=
  ⟨fs.dirs, p :: fs.files⟩

/-- Bool test whether pre is a prefix of s, in characters (the behaviour
of String.startsWith). -/
def strStartsWith (s pre : String) : Bool :=
  pre.toList.isPrefixOf s.toList

/-- Bool test whether post is a suffix of s, in characters (the behaviour
of String.endsWith). -/
def strEndsWith (s post : String) : Bool :=
  post.toList.reverse.isPrefixOf s.toList.reverse

/-- Drop of the first n characters of s (the behaviour of String.drop). -/
def strDrop (s : String) (n : Nat) : String :=
  String.mk (s.toList.drop n)

/-- Length of s in characters. -/
def strLength (s : String) : Nat :=
  s.toList.length

/-- Model of os.path.join for two components (POSIX): an absolute second
component replaces the first, otherwise the components are joined with a
single slash. -/
def pathJoin (a b : String) : String :=
  if strStartsWith b "/" then b
  else if a = "" then b
  else if strEndsWith a "/" then a ++ b
  else a ++ "/" ++ b

/-! Constants from ap_pipe.py (module level). -/

def RAW_DIR : String := "raw"
def MASTERCAL_DIR : String := "calib"
def DEFECT_DIR : String := "calib"
def REFCATS_DIR : String := "refcats"
def TEMPLATES_DIR : String := "templates"

def INGESTED_DIR : String := "ingested"
def CALIBINGESTED_DIR : String := "calibingested"
def PROCESSED_DIR : String := "processed"
def DIFFIM_DIR : String := "diffim"

/-- OUTPUT_DIRS = [INGESTED_DIR, CALIBINGESTED_DIR, PROCESSED_DIR, DIFFIM_DIR]. -/
def OUTPUT_DIRS : List String := [INGESTED_DIR, CALIBINGESTED_DIR, PROCESSED_DIR, DIFFIM_DIR]

/-- Embedding of get_output_repos(outputpath): creates outputpath when it is
not a directory, then returns the four repository paths built from
OUTPUT_DIRS by os.path.join. The returned pair is (new filesystem state,
(repo, calib_repo, processed_repo, diffim_repo)). -/
def get_output_repos (fs : FS) (outputpath : String) :
    FS × (String × String × String × String) :=
  let fs := if fs.isDir outputpath then fs else fs.mkdir outputpath
  (fs, (pathJoin outputpath (OUTPUT_DIRS.getD 0 ""),
        pathJoin outputpath (OUTPUT_DIRS.getD 1 ""),
        pathJoin outputpath (OUTPUT_DIRS.getD 2 ""),
        pathJoin outputpath (OUTPUT_DIRS.getD 3 "")))

/-! Parsing of the dataId command-line string, as in doProcessCcd and
doDiffIm: re.split on the single characters space, plus and equals,
then dict(zip(items[0::2], items[1::2])). -/

/-- Splitting of a character list at every character satisfying p, keeping
empty pieces, as re.split with a single-character class does. -/
def splitChars (p : Char → Bool) : List Char → List (List Char)
  | [] => [[]]
  | c :: rest =>
    if p c then [] :: splitChars p rest
    else
      match splitChars p rest with
      | [] => [[c]]
      | piece :: pieces => (c :: piece) :: pieces

/-- Model of re.split([ +=], dataId): split at every occurrence of a
space, plus or equals character, keeping empty pieces. -/
def splitDataId (dataId : String) : List String :=
  (splitChars (fun c => c == ' ' || c == '+' || c == '=') dataId.toList).map String.mk

/-- Model of zip(items[0::2], items[1::2]): consecutive pairs, dropping a
trailing unpaired item. -/
def chunkPairs {α : Type} : List α → List (α × α)
  | a :: b :: rest => (a, b) :: chunkPairs rest
  | _ => []

/-- The key-value pairs of the dataId string, in order. -/
def dataIdPairs (dataId : String) : List (String × String) :=
  chunkPairs (splitDataId dataId)

/-- Model of dict(zip(...))[k]: the value of the LAST pair with the given
key (dict semantics), none when the key is absent. -/
def dataIdLookup (dataId : String) (k : String) : Option String :=
  ((dataIdPairs dataId).reverse).lookup k

/-- The visit entry of the dataId dict, none when visit is not a key. -/
def lookupVisit (dataId : String) : Option String :=
  dataIdLookup dataId "visit"

/-! Abstract metadata and errors of the external framework. -/

/-- Exceptions of the external framework that ap_pipe.py distinguishes:
sqlite3.IntegrityError (caught in flatBiasIngest) versus any other
propagating exception. -/
inductive PyError where
  | integrityError (msg : String)
  | other (msg : String)
deriving DecidableEq

/-- External framework environment for ap_pipe.py: the pre-built tasks and
tar extraction, each acting on the filesystem state and returning the new
state (and metadata where the source reads getFullMetadata). Metadata is
the abstract type of PropertySet values. -/
structure PipeEnv (Metadata : Type) where
  ingestRun : FS → List String → FS × Metadata
  extractTar : FS → String → String → FS
  calibIngestRun : FS → List String → FS × Except PyError Metadata
  defectIngestRun : FS → String → String → List String → FS × Metadata
  combine : Metadata → Metadata → Metadata
  processCcdRun : FS → String → String → String → List (String × String) → FS × Metadata
  imageDifferenceRun : FS → String → List String → String → String → FS × Metadata

/-! Constants local to doIngest. -/

def ASTROM_REFCA_TAR : String := "gaia_HiTS_2015.tar.gz"
def PHOTOM_REFCA_TAR : String := "ps1_HiTS_2015.tar.gz"
def ASTROM_REFCA_DIR : String := "ref_cats/gaia"
def PHOTOM_REFCA_DIR : String := "ref_cats/pan-starrs"

/-- The argument list doIngest hands to the decam ingest task. -/
def ingestArgs (repo : String) (datafiles : List String) : List String :=
  [repo, "--filetype", "raw", "--mode", "link"] ++ datafiles

/-- Embedding of doIngest(repo, refcats, datafiles). Returns the new
filesystem state and the metadata (none when the registry checkpoint
exists and ingestion is skipped). -/
def doIngest {M : Type} (env : PipeEnv M) (fs : FS)
    (repo refcats : String) (datafiles : List String) : FS × Option M :=
  if fs.pathExists (pathJoin repo "registry.sqlite3") then (fs, none)
  else
    let fs := if fs.isDir repo then fs else fs.mkdir repo
    let fs := fs.writeFile (pathJoin repo "_mapper")
    let (fs, md) := env.ingestRun fs (ingestArgs repo datafiles)
    let fs := env.extractTar fs (pathJoin refcats ASTROM_REFCA_TAR) (pathJoin repo ASTROM_REFCA_DIR)
    let fs := env.extractTar fs (pathJoin refcats PHOTOM_REFCA_TAR) (pathJoin repo PHOTOM_REFCA_DIR)
    (fs, some md)

/-- The argument list flatBiasIngest hands to the calib ingest task. -/
def flatBiasArgs (repo calib_repo : String) (calibdatafiles : List String) : List String :=
  [repo, "--calib", calib_repo, "--mode", "link", "--validity", "999"] ++ calibdatafiles

/-- Embedding of flatBiasIngest(repo, calib_repo, calibdatafiles): runs the
calib ingest task; a sqlite3.IntegrityError is caught and turned into a
none metadata result, any other exception propagates. -/
def flatBiasIngest {M : Type} (env : PipeEnv M) (fs : FS)
    (repo calib_repo : String) (calibdatafiles : List String) :
    FS × Except PyError (Option M) :=
  match env.calibIngestRun fs (flatBiasArgs repo calib_repo calibdatafiles) with
  | (fs, Except.error (PyError.integrityError _)) => (fs, Except.ok none)
  | (fs, Except.error e) => (fs, Except.error e)
  | (fs, Except.ok md) => (fs, Except.ok (some md))

/-- Embedding of defectIngest(repo, calib_repo, defectfiles): when the
defects directory inside calib_repo already exists the stage is skipped
with none metadata; otherwise the directory is created and the defect
ingest task (tar extraction, parsing and registry update folded into the
environment call) is run. -/
def defectIngest {M : Type} (env : PipeEnv M) (fs : FS)
    (repo calib_repo : String) (defectfiles : List String) : FS × Option M :=
  if fs.isDir (pathJoin calib_repo "defects") then (fs, none)
  else
    let fs := fs.mkdir (pathJoin calib_repo "defects")
    let (fs, md) := env.defectIngestRun fs repo calib_repo defectfiles
    (fs, some md)

/-- Combination of the two metadata results at the end of doIngestCalibs:
flat/bias metadata combined with defect metadata when both exist, the
defect metadata alone when the flat/bias one is none. -/
def combineCalibMetadata {M : Type} (env : PipeEnv M) :
    Option M → Option M → Option M
  | some fb, some dm => some (env.combine fb dm)
  | some fb, none => some fb
  | none, dm => dm

/-- Embedding of doIngestCalibs(repo, calib_repo, calibdatafiles,
defectfiles): creates calib_repo when missing, skips flat/bias ingestion
when the cpBIAS checkpoint exists, otherwise runs flatBiasIngest; then
runs defectIngest and combines the metadata. An exception escaping
flatBiasIngest propagates before defect ingestion. -/
def doIngestCalibs {M : Type} (env : PipeEnv M) (fs : FS)
    (repo calib_repo : String) (calibdatafiles defectfiles : List String) :
    FS × Except PyError (Option M) :=
  let step : FS × Except PyError (Option M × Option M) :=
    if ¬ fs.isDir calib_repo then
      let fs := fs.mkdir calib_repo
      match flatBiasIngest env fs repo calib_repo calibdatafiles with
      | (fs, Except.error e) => (fs, Except.error e)
      | (fs, Except.ok fb) =>
        let (fs, dm) := defectIngest env fs repo calib_repo defectfiles
        (fs, Except.ok (fb, dm))
    else if fs.pathExists (pathJoin calib_repo "cpBIAS") then
      let (fs, dm) := defectIngest env fs repo calib_repo defectfiles
      (fs, Except.ok (none, dm))
    else
      match flatBiasIngest env fs repo calib_repo calibdatafiles with
      | (fs, Except.error e) => (fs, Except.error e)
      | (fs, Except.ok fb) =>
        let (fs, dm) := defectIngest env fs repo calib_repo defectfiles
        (fs, Except.ok (fb, dm))
  match step with
  | (fs, Except.error e) => (fs, Except.error e)
  | (fs, Except.ok (fb, dm)) => (fs, Except.ok (combineCalibMetadata env fb dm))

/-- Error message of the RuntimeError raised when the dataId has no visit
key (the source text uses quotes around the word visit). -/
def missingVisitMsg : String := "The dataId string is missing visit"

/-- Embedding of doProcessCcd(repo, calib_repo, processed_repo, dataId):
parses the dataId, raises RuntimeError when visit is absent, skips with
none when the processed_repo/0visit checkpoint directory exists, else
creates processed_repo when missing and runs the ProcessCcd task (butler
construction and configuration folded into the environment call). -/
def doProcessCcd {M : Type} (env : PipeEnv M) (fs : FS)
    (repo calib_repo processed_repo dataId : String) :
    FS × Except String (Option M) :=
  match lookupVisit dataId with
  | none => (fs, Except.error missingVisitMsg)
  | some visit =>
    if fs.isDir (pathJoin processed_repo ("0" ++ visit)) then (fs, Except.ok none)
    else
      let fs := if fs.isDir processed_repo then fs else fs.mkdir processed_repo
      let (fs, md) := env.processCcdRun fs repo calib_repo processed_repo (dataIdPairs dataId)
      (fs, Except.ok (some md))

/-- Embedding of doDiffIm(processed_repo, dataId, template, diffim_repo):
parses the dataId, raises RuntimeError when visit is absent, skips with
none when diffim_repo/deepDiff/vvisit exists, else creates diffim_repo
when missing and runs the ImageDifference task on the space-split dataId
(configuration and parseAndRun folded into the environment call). -/
def doDiffIm {M : Type} (env : PipeEnv M) (fs : FS)
    (processed_repo dataId template diffim_repo : String) :
    FS × Except String (Option M) :=
  match lookupVisit dataId with
  | none => (fs, Except.error missingVisitMsg)
  | some visit =>
    if fs.pathExists (pathJoin (pathJoin diffim_repo "deepDiff") ("v" ++ visit)) then
      (fs, Except.ok none)
    else
      let fs := if fs.isDir diffim_repo then fs else fs.mkdir diffim_repo
      let (fs, md) := env.imageDifferenceRun fs processed_repo
        (dataId.split fun c => c == ' ') template diffim_repo
      (fs, Except.ok (some md))

/-! File discovery: glob and get_calibdatafiles. -/

/-- Bool test that the pattern occurs as a contiguous sublist. -/
def hasInfix (pat : List Char) : List Char → Bool
  | [] => pat.isEmpty
  | c :: rest => pat.isPrefixOf (c :: rest) || hasInfix pat rest

/-- Bool test that the pattern string occurs as a substring of the file
path (the Python in operator on strings). -/
def strContainsSub (file pat : String) : Bool :=
  hasInfix pat.toList file.toList

/-- Model of glob.glob(dir/base) for the patterns the source uses: when
base starts with a star, matches every file directly inside dir whose
name ends with the rest of the pattern (glob skips names starting with a
dot); otherwise matches the literal path. -/
def globIn (fs : FS) (dir base : String) : List String :=
  if strStartsWith base "*" then
    fs.files.filter fun f =>
      strStartsWith f (dir ++ "/") &&
        (let name := strDrop f (strLength dir + 1)
         !strStartsWith name "." && !name.toList.contains '/' &&
           strEndsWith name (strDrop base 1))
  else
    fs.files.filter fun f => f == pathJoin dir base

/-- Embedding of get_calibdatafiles(dataset_root): glob for *.fits and
*.fz under dataset_root/calib, then drop every file whose path contains
one of the substrings fcw, zcw, ici (weight maps and illumination
corrections). -/
def get_calibdatafiles (fs : FS) (dataset_root : String) : List String :=
  let types : List String := ["*.fits", "*.fz"]
  let allcalibdatafiles :=
    types.foldl (fun acc pat => acc ++ globIn fs (pathJoin dataset_root MASTERCAL_DIR) pat) []
  let filestoignore : List String := ["fcw", "zcw", "ici"]
  allcalibdatafiles.filter fun file =>
    filestoignore.all fun s => !(strContainsSub file s)

end ApPipe

namespace ApPipe

/-- C7: for every filesystem state and outputpath, get_output_repos returns
exactly the four paths outputpath/ingested, outputpath/calibingested,
outputpath/processed, outputpath/diffim in that order; afterwards
outputpath is a directory; when outputpath already was a directory the
filesystem is unchanged, and when it was not, the only change is creating
outputpath. -/
theorem get_output_repos_spec (fs : FS) (outputpath : String) :
    (get_output_repos fs outputpath).2 =
      (pathJoin outputpath "ingested", pathJoin outputpath "calibingested",
       pathJoin outputpath "processed", pathJoin outputpath "diffim") ∧
    ((get_output_repos fs outputpath).1).isDir outputpath = true ∧
    (fs.isDir outputpath = true → (get_output_repos fs outputpath).1 = fs) ∧
    (fs.isDir outputpath = false → (get_output_repos fs outputpath).1 = fs.mkdir outputpath) := by
  refine ⟨rfl, ?_, ?_, ?_⟩
  · simp only [get_output_repos, FS.isDir, FS.mkdir]
    by_cases h : outputpath ∈ fs.dirs
    · simp [h]
    · simp [h]
  · intro h
    simp [get_output_repos, h]
  · intro h
    simp [get_output_repos, h]

/-- Witness for get_output_repos_spec at a concrete filesystem and path. -/
theorem get_output_repos_spec_witness :
    (get_output_repos ⟨[], []⟩ "out").2 =
      (pathJoin "out" "ingested", pathJoin "out" "calibingested",
       pathJoin "out" "processed", pathJoin "out" "diffim") ∧
    (get_output_repos ⟨[], []⟩ "out").1 = (FS.mk [] []).mkdir "out" :=
  ⟨(get_output_repos_spec ⟨[], []⟩ "out").1,
   (get_output_repos_spec ⟨[], []⟩ "out").2.2.2 (by decide)⟩

/-- C4: when the stage checkpoint exists (repo/registry.sqlite3 for
doIngest, processed_repo/0visit for doProcessCcd, diffim_repo/deepDiff/
vvisit for doDiffIm), the stage returns none and leaves the filesystem
unchanged, for every environment, so the external task is never run. -/
theorem checkpoint_skip {M : Type} (env : PipeEnv M) (fs : FS)
    (repo refcats calib_repo processed_repo diffim_repo dataId template visit : String)
    (datafiles : List String)
    (h1 : fs.pathExists (pathJoin repo "registry.sqlite3") = true)
    (h2 : lookupVisit dataId = some visit)
    (h3 : fs.isDir (pathJoin processed_repo ("0" ++ visit)) = true)
    (h4 : fs.pathExists (pathJoin (pathJoin diffim_repo "deepDiff") ("v" ++ visit)) = true) :
    doIngest env fs repo refcats datafiles = (fs, none) ∧
    doProcessCcd env fs repo calib_repo processed_repo dataId = (fs, Except.ok none) ∧
    doDiffIm env fs processed_repo dataId template diffim_repo = (fs, Except.ok none) := by
  refine ⟨?_, ?_, ?_⟩
  · simp [doIngest, h1]
  · simp [doProcessCcd, h2, h3]
  · simp [doDiffIm, h2, h4]

/-- A concrete environment instantiating the abstract framework tasks, for
evaluating the pipeline driver functions on closed inputs. -/
def testPipeEnv : PipeEnv Nat where
  ingestRun := fun fs _ => (fs, 1)
  extractTar := fun fs _ _ => fs
  calibIngestRun := fun fs _ => (fs, Except.error (PyError.integrityError "dup"))
  defectIngestRun := fun fs _ _ _ => (fs, 7)
  combine := Nat.add
  processCcdRun := fun fs _ _ _ _ => (fs, 2)
  imageDifferenceRun := fun fs _ _ _ _ => (fs, 3)

/-- A concrete filesystem in which all three stage checkpoints exist. -/
def testCheckpointFS : FS :=
  ⟨["out/processed/0123", "out/diffim/deepDiff/v123"],
   ["out/ingested/registry.sqlite3"]⟩

/-- Witness for checkpoint_skip on a concrete filesystem holding all three
checkpoints for visit 123. -/
theorem checkpoint_skip_witness :
    doIngest testPipeEnv testCheckpointFS "out/ingested" "refcats" [] =
      (testCheckpointFS, none) ∧
    doProcessCcd testPipeEnv testCheckpointFS "out/ingested" "out/calibingested"
      "out/processed" "visit=123 ccdnum=5" = (testCheckpointFS, Except.ok none) ∧
    doDiffIm testPipeEnv testCheckpointFS "out/processed" "visit=123 ccdnum=5"
      "410929" "out/diffim" = (testCheckpointFS, Except.ok none) :=
  checkpoint_skip testPipeEnv testCheckpointFS "out/ingested" "refcats"
    "out/calibingested" "out/processed" "out/diffim" "visit=123 ccdnum=5" "410929" "123" []
    (by decide) (by decide) (by decide) (by decide)

/-- Helper: combining a missing flat/bias metadata with the defect
metadata yields the defect metadata alone. -/
theorem combineCalibMetadata_none {M : Type} (env : PipeEnv M) (dm : Option M) :
    combineCalibMetadata env none dm = dm := by
  cases dm <;> rfl

/-- C5: when the calib ingest task raises sqlite3.IntegrityError,
flatBiasIngest catches it and returns none metadata instead of
propagating, and doIngestCalibs (in the branch where calib_repo exists
and the cpBIAS checkpoint does not) still performs defect ingestion and
returns the defect metadata alone. -/
theorem integrityError_defect_alone {M : Type} (env : PipeEnv M) (fs fs2 : FS)
    (repo calib_repo msg : String) (calibdatafiles defectfiles : List String)
    (hdir : fs.isDir calib_repo = true)
    (hcp : fs.pathExists (pathJoin calib_repo "cpBIAS") = false)
    (hrun : env.calibIngestRun fs (flatBiasArgs repo calib_repo calibdatafiles) =
      (fs2, Except.error (PyError.integrityError msg))) :
    flatBiasIngest env fs repo calib_repo calibdatafiles = (fs2, Except.ok none) ∧
    doIngestCalibs env fs repo calib_repo calibdatafiles defectfiles =
      ((defectIngest env fs2 repo calib_repo defectfiles).1,
       Except.ok (defectIngest env fs2 repo calib_repo defectfiles).2) := by
  have hfb : flatBiasIngest env fs repo calib_repo calibdatafiles = (fs2, Except.ok none) := by
    simp [flatBiasIngest, hrun]
  refine ⟨hfb, ?_⟩
  rcases hdef : defectIngest env fs2 repo calib_repo defectfiles with ⟨fs3, dm⟩
  simp [doIngestCalibs, hdir, hcp, hfb, hdef, combineCalibMetadata_none]

/-- A concrete filesystem in which calib_repo exists with no cpBIAS
checkpoint and no defects directory. -/
def testCalibFS : FS := ⟨["out/calibingested"], []⟩

/-- Witness for integrityError_defect_alone: testPipeEnv raises
IntegrityError on calib ingest, so doIngestCalibs returns the defect
metadata alone. -/
theorem integrityError_defect_alone_witness :
    flatBiasIngest testPipeEnv testCalibFS "out/ingested" "out/calibingested" ["b.fits"] =
      (testCalibFS, Except.ok none) ∧
    doIngestCalibs testPipeEnv testCalibFS "out/ingested" "out/calibingested" ["b.fits"] ["d.fits"] =
      ((defectIngest testPipeEnv testCalibFS "out/ingested" "out/calibingested" ["d.fits"]).1,
       Except.ok (defectIngest testPipeEnv testCalibFS "out/ingested" "out/calibingested" ["d.fits"]).2) :=
  integrityError_defect_alone testPipeEnv testCalibFS testCalibFS
    "out/ingested" "out/calibingested" "dup" ["b.fits"] ["d.fits"]
    (by decide) (by decide) rfl

/-- C8: when the dataId string has no visit key among its space, plus or
equals separated pairs, doProcessCcd and doDiffIm raise RuntimeError,
leave the filesystem unchanged, and never invoke the external tasks
(the conclusion holds for every environment). -/
theorem missing_visit_raises {M : Type} (env : PipeEnv M) (fs : FS)
    (repo calib_repo processed_repo diffim_repo dataId template : String)
    (h : lookupVisit dataId = none) :
    doProcessCcd env fs repo calib_repo processed_repo dataId =
      (fs, Except.error missingVisitMsg) ∧
    doDiffIm env fs processed_repo dataId template diffim_repo =
      (fs, Except.error missingVisitMsg) := by
  constructor <;> simp [doProcessCcd, doDiffIm, h]

/-- Witness for missing_visit_raises on the dataId ccdnum=7, which has no
visit key. -/
theorem missing_visit_raises_witness :
    doProcessCcd testPipeEnv testCalibFS "out/ingested" "out/calibingested"
      "out/processed" "ccdnum=7" = (testCalibFS, Except.error missingVisitMsg) ∧
    doDiffIm testPipeEnv testCalibFS "out/processed" "ccdnum=7" "410929" "out/diffim" =
      (testCalibFS, Except.error missingVisitMsg) :=
  missing_visit_raises testPipeEnv testCalibFS "out/ingested" "out/calibingested"
    "out/processed" "out/diffim" "ccdnum=7" "410929" (by decide)

/-- Predicate written from the claim wording for C10: the file matches
*.fits or *.fz directly under dataset_root/calib and its path contains
none of the substrings fcw, zcw, ici. -/
def calibFileSpec (fs : FS) (dataset_root file : String) : Prop :=
  (file ∈ globIn fs (pathJoin dataset_root "calib") "*.fits" ∨
   file ∈ globIn fs (pathJoin dataset_root "calib") "*.fz") ∧
  strContainsSub file "fcw" = false ∧
  strContainsSub file "zcw" = false ∧
  strContainsSub file "ici" = false

/-- C10: get_calibdatafiles returns exactly the files matching *.fits or
*.fz in dataset_root/calib whose paths contain none of the substrings
fcw, zcw, ici. -/
theorem get_calibdatafiles_spec (fs : FS) (dataset_root file : String) :
    file ∈ get_calibdatafiles fs dataset_root ↔ calibFileSpec fs dataset_root file := by
  simp only [get_calibdatafiles, calibFileSpec, MASTERCAL_DIR, List.foldl, List.nil_append,
    List.mem_filter, List.mem_append, List.all_cons, List.all_nil, Bool.and_eq_true,
    Bool.not_eq_true', and_true, and_assoc]

end ApPipe

namespace SelectImages

/-!
Embedding of selectImages.py. The geometry and persistence primitives of
the external framework (coord.getVector, lsst.geom.convexHull,
SphericalConvexPolygon.intersects, Wcs.pixelToSky, the butler fetch of
the calexp PSF determinant radius, dataRef.dataId) are abstracted as an
environment of functions over abstract types. PSF sizes and the FWHM
thresholds are rationals; the constant np.sqrt(8*np.log(2)) multiplying
the determinant-radius sigma is irrational and is abstracted as the
fwhmFactor parameter that every theorem quantifies over.
-/

/-- Configuration MaxPsfWcsSelectImageConfig: FWHM interval bounds in
pixels (source defaults 5 and 0). -/
structure MaxPsfWcsSelectImageConfig where
  maxPsfFwhm : ℚ
  minPsfFwhm : ℚ
deriving DecidableEq

/-- One element of selectDataList: a SelectStruct carrying the data
reference, the image Wcs and the image dimensions. -/
structure SelectStruct (Wcs DataRef : Type) where
  dataRef : DataRef
  wcs : Wcs
  dims : ℤ × ℤ
deriving DecidableEq

/-- BaseExposureInfo(dataRef.dataId, imageCorners). -/
structure BaseExposureInfo (DataId Coord : Type) where
  dataId : DataId
  coordList : List Coord
deriving DecidableEq

/-- The pipe.base.Struct returned by runDataRef: dataRefList is none when
makeDataRefList is false. -/
structure Struct (DataRef DataId Coord : Type) where
  dataRefList : Option (List DataRef)
  exposureInfoList : List (BaseExposureInfo DataId Coord)
deriving DecidableEq

/-- External framework environment for runDataRef. pixelToSky returns
none when the call raises DomainError or RuntimeError (the two
exceptions the source catches); convexHull returns none when no convex
polygon can be built; getPsfSigma is the determinant radius of the PSF
shape of the calexp fetched for the data reference. -/
structure SelEnv (Coord Vec Poly Wcs DataRef DataId : Type) where
  getVector : Coord → Vec
  convexHull : List Vec → Option Poly
  intersects : Poly → Poly → Bool
  pixelToSky : Wcs → ℤ × ℤ → Option Coord
  getPsfSigma : DataRef → ℚ
  dataId : DataRef → DataId

variable {Coord Vec Poly Wcs DataRef DataId : Type}

/-- Corners of afwGeom.Box2D(Point2D(0, 0), Extent2D(nx, ny)), in the
order getCorners returns them. -/
def boxCorners (nx ny : ℤ) : List (ℤ × ℤ) :=
  [(0, 0), (nx, 0), (nx, ny), (0, ny)]

/-- The list comprehension [imageWcs.pixelToSky(pix) for pix in
imageBox.getCorners()]: none when any corner raises. -/
def imageCornersOf (env : SelEnv Coord Vec Poly Wcs DataRef DataId)
    (d : SelectStruct Wcs DataRef) : Option (List Coord) :=
  (boxCorners d.dims.1 d.dims.2).mapM (env.pixelToSky d.wcs)

/-- The image footprint polygon: convexHull of the sky corners, none when
the corners cannot be computed or the hull does not exist. -/
def imagePolyOf (env : SelEnv Coord Vec Poly Wcs DataRef DataId)
    (d : SelectStruct Wcs DataRef) : Option Poly :=
  match imageCornersOf env d with
  | none => none
  | some corners => env.convexHull (corners.map env.getVector)

/-- The FWHM filter of the second loop: size_fwhm < maxPsfFwhm and
size_fwhm > minPsfFwhm, both strict. -/
def fwhmOk (cfg : MaxPsfWcsSelectImageConfig) (fwhm : ℚ) : Bool :=
  decide (fwhm < cfg.maxPsfFwhm) && decide (fwhm > cfg.minPsfFwhm)

/-- Body of the first loop of runDataRef for one element of
selectDataList: none when the element is skipped by continue (WCS error
or no polygon) or fails the intersection test, otherwise the
(psf_size, dataRef, exposureInfo) entry appended to the three lists. -/
def loopEntry (env : SelEnv Coord Vec Poly Wcs DataRef DataId) (patchPoly : Poly)
    (d : SelectStruct Wcs DataRef) :
    Option (ℚ × DataRef × BaseExposureInfo DataId Coord) :=
  match imageCornersOf env d with
  | none => none
  | some imageCorners =>
    match env.convexHull (imageCorners.map env.getVector) with
    | none => none
    | some imagePoly =>
      if env.intersects patchPoly imagePoly then
        some (env.getPsfSigma d.dataRef, d.dataRef,
          ⟨env.dataId d.dataRef, imageCorners⟩)
      else none

/-- The three parallel lists built by the first loop, kept zipped. -/
def overlapTriples (env : SelEnv Coord Vec Poly Wcs DataRef DataId) (patchPoly : Poly)
    (l : List (SelectStruct Wcs DataRef)) :
    List (ℚ × DataRef × BaseExposureInfo DataId Coord) :=
  l.filterMap (loopEntry env patchPoly)

/-- The second loop of runDataRef: keep the entries whose FWHM
(size_sigma times the sqrt(8 ln 2) factor) passes the threshold test. -/
def fwhmFilterTriples (cfg : MaxPsfWcsSelectImageConfig) (fwhmFactor : ℚ)
    (triples : List (ℚ × DataRef × BaseExposureInfo DataId Coord)) :
    List (ℚ × DataRef × BaseExposureInfo DataId Coord) :=
  triples.filter fun t => fwhmOk cfg (t.1 * fwhmFactor)

/-- Embedding of MaxPsfWcsSelectImagesTask.runDataRef. The outer none
models the AttributeError the source would raise when the patch vertices
admit no convex hull yet some image reaches the intersection test (the
source never checks patchPoly for None). -/
def runDataRef (env : SelEnv Coord Vec Poly Wcs DataRef DataId)
    (cfg : MaxPsfWcsSelectImageConfig) (fwhmFactor : ℚ) (coordList : List Coord)
    (selectDataList : List (SelectStruct Wcs DataRef)) (makeDataRefList : Bool) :
    Option (Struct DataRef DataId Coord) :=
  let patchVertices := coordList.map env.getVector
  match env.convexHull patchVertices with
  | none =>
    if selectDataList.any (fun d => (imagePolyOf env d).isSome) then none
    else some ⟨if makeDataRefList then some [] else none, []⟩
  | some patchPoly =>
    let kept := fwhmFilterTriples cfg fwhmFactor (overlapTriples env patchPoly selectDataList)
    some ⟨if makeDataRefList then some (kept.map fun t => t.2.1) else none,
      kept.map fun t => t.2.2⟩

/-- Selection predicate read off the claim: the image footprint polygon
exists and intersects the patch polygon, and the FWHM (determinant
radius sigma times the fwhmFactor) lies strictly between minPsfFwhm and
maxPsfFwhm. -/
def isSelected (env : SelEnv Coord Vec Poly Wcs DataRef DataId)
    (cfg : MaxPsfWcsSelectImageConfig) (fwhmFactor : ℚ) (patchPoly : Poly)
    (d : SelectStruct Wcs DataRef) : Bool :=
  (match imagePolyOf env d with
   | some imagePoly => env.intersects patchPoly imagePoly
   | none => false) &&
  fwhmOk cfg (env.getPsfSigma d.dataRef * fwhmFactor)

/-- The exposure info recorded for a selected element. -/
def expInfoOf (env : SelEnv Coord Vec Poly Wcs DataRef DataId)
    (d : SelectStruct Wcs DataRef) : BaseExposureInfo DataId Coord :=
  ⟨env.dataId d.dataRef, (imageCornersOf env d).getD []⟩

/-- The (psf_size, dataRef, exposureInfo) triple of a selected element. -/
def tripleOf (env : SelEnv Coord Vec Poly Wcs DataRef DataId)
    (d : SelectStruct Wcs DataRef) : ℚ × DataRef × BaseExposureInfo DataId Coord :=
  (env.getPsfSigma d.dataRef, d.dataRef, expInfoOf env d)

/-- Geometric half of the selection predicate: the image footprint
polygon exists and intersects the patch polygon. -/
def geomOk (env : SelEnv Coord Vec Poly Wcs DataRef DataId) (patchPoly : Poly)
    (d : SelectStruct Wcs DataRef) : Bool :=
  match imagePolyOf env d with
  | some imagePoly => env.intersects patchPoly imagePoly
  | none => false

/-- Helper: isSelected splits into the geometric test and the FWHM test. -/
theorem isSelected_eq (env : SelEnv Coord Vec Poly Wcs DataRef DataId)
    (cfg : MaxPsfWcsSelectImageConfig) (fwhmFactor : ℚ) (patchPoly : Poly)
    (d : SelectStruct Wcs DataRef) :
    isSelected env cfg fwhmFactor patchPoly d =
      (geomOk env patchPoly d && fwhmOk cfg (env.getPsfSigma d.dataRef * fwhmFactor)) := rfl

/-- Helper: the body of the first loop keeps exactly the elements passing
the geometric test, recording their selection triple. -/
theorem loopEntry_eq (env : SelEnv Coord Vec Poly Wcs DataRef DataId) (patchPoly : Poly)
    (d : SelectStruct Wcs DataRef) :
    loopEntry env patchPoly d =
      if geomOk env patchPoly d then some (tripleOf env d) else none := by
  cases hc : imageCornersOf env d with
  | none => simp [loopEntry, geomOk, imagePolyOf, hc]
  | some corners =>
    cases hh : env.convexHull (corners.map env.getVector) with
    | none => simp [loopEntry, geomOk, imagePolyOf, hc, hh]
    | some imagePoly =>
      by_cases hi : env.intersects patchPoly imagePoly = true <;>
        simp [loopEntry, geomOk, imagePolyOf, tripleOf, expInfoOf, hc, hh, hi]

/-- Helper: the two loops of runDataRef collapse into a single filter by
the selection predicate, each kept element contributing its triple. -/
theorem kept_eq_filter (env : SelEnv Coord Vec Poly Wcs DataRef DataId)
    (cfg : MaxPsfWcsSelectImageConfig) (fwhmFactor : ℚ) (patchPoly : Poly)
    (l : List (SelectStruct Wcs DataRef)) :
    fwhmFilterTriples cfg fwhmFactor (overlapTriples env patchPoly l) =
      (l.filter (isSelected env cfg fwhmFactor patchPoly)).map (tripleOf env) := by
  induction l with
  | nil => rfl
  | cons d rest ih =>
    by_cases hg : geomOk env patchPoly d = true
    · have hle : loopEntry env patchPoly d = some (tripleOf env d) := by
        rw [loopEntry_eq, if_pos hg]
      have hov : overlapTriples env patchPoly (d :: rest) =
          tripleOf env d :: overlapTriples env patchPoly rest := by
        simp [overlapTriples, List.filterMap_cons, hle]
      by_cases hf : fwhmOk cfg (env.getPsfSigma d.dataRef * fwhmFactor) = true
      · have hsel : isSelected env cfg fwhmFactor patchPoly d = true := by
          simp [isSelected_eq, hg, hf]
        simp only [fwhmFilterTriples] at ih ⊢
        rw [hov, List.filter_cons, List.filter_cons, hsel]
        simp only [tripleOf, hf, if_pos, List.map_cons]
        rw [ih]
      · have hsel : isSelected env cfg fwhmFactor patchPoly d = false := by
          simp [isSelected_eq, hg, hf]
        simp only [fwhmFilterTriples] at ih ⊢
        rw [hov, List.filter_cons, List.filter_cons, hsel]
        simp only [tripleOf, hf, List.map_cons]
        simp only [if_neg, if_false, Bool.false_eq_true, ite_false]
        exact ih
    · have hle : loopEntry env patchPoly d = none := by
        rw [loopEntry_eq, if_neg hg]
      have hsel : isSelected env cfg fwhmFactor patchPoly d = false := by
        rw [isSelected_eq]
        simp only [Bool.not_eq_true] at hg
        rw [hg, Bool.false_and]
      have hov : overlapTriples env patchPoly (d :: rest) =
          overlapTriples env patchPoly rest := by
        simp [overlapTriples, List.filterMap_cons, hle]
      simp only [fwhmFilterTriples] at ih ⊢
      rw [hov, List.filter_cons, hsel]
      simp only [Bool.false_eq_true, ite_false]
      exact ih

/-- Helper: characterization of runDataRef when the patch polygon
exists: the result is exactly the filter of selectDataList by the
selection predicate, projected to data references and exposure infos. -/
theorem runDataRef_char (env : SelEnv Coord Vec Poly Wcs DataRef DataId)
    (cfg : MaxPsfWcsSelectImageConfig) (fwhmFactor : ℚ) (coordList : List Coord)
    (l : List (SelectStruct Wcs DataRef)) (patchPoly : Poly) (mk : Bool)
    (hp : env.convexHull (coordList.map env.getVector) = some patchPoly) :
    runDataRef env cfg fwhmFactor coordList l mk =
      some ⟨if mk then
              some ((l.filter (isSelected env cfg fwhmFactor patchPoly)).map SelectStruct.dataRef)
            else none,
        (l.filter (isSelected env cfg fwhmFactor patchPoly)).map (expInfoOf env)⟩ := by
  simp only [runDataRef, hp]
  rw [kept_eq_filter]
  simp [List.map_map, tripleOf, Function.comp_def]

/-- C1: with the patch polygon in hand, runDataRef selects exactly the
images of selectDataList whose footprint polygon intersects the patch
polygon and whose PSF FWHM (determinant-radius sigma times the
fwhmFactor parameter standing for sqrt(8 ln 2)) lies strictly between
minPsfFwhm and maxPsfFwhm, in input order. -/
theorem runDataRef_selects_exactly (env : SelEnv Coord Vec Poly Wcs DataRef DataId)
    (cfg : MaxPsfWcsSelectImageConfig) (fwhmFactor : ℚ) (coordList : List Coord)
    (l : List (SelectStruct Wcs DataRef)) (patchPoly : Poly)
    (hp : env.convexHull (coordList.map env.getVector) = some patchPoly) :
    runDataRef env cfg fwhmFactor coordList l true =
      some ⟨some ((l.filter (isSelected env cfg fwhmFactor patchPoly)).map SelectStruct.dataRef),
        (l.filter (isSelected env cfg fwhmFactor patchPoly)).map (expInfoOf env)⟩ := by
  simpa using runDataRef_char env cfg fwhmFactor coordList l patchPoly true hp

/-- A concrete environment for evaluating runDataRef: Wcs 0 maps a pixel
to the sum of its coordinates, any other Wcs raises; every hull exists
(the length of the vertex list) and all polygons intersect; the PSF
sigma of a data reference is its own value. -/
def testSelEnv : SelEnv Nat Nat Nat Nat Nat Nat where
  getVector := id
  convexHull := fun l => some l.length
  intersects := fun _ _ => true
  pixelToSky := fun w p => if w == 0 then some (p.1 + p.2).toNat else none
  getPsfSigma := fun r => (r : ℚ)
  dataId := id

/-- A concrete selection list: sigma 1 (selected for max 2), sigma 3
(rejected by the FWHM cut for max 2), and a degenerate Wcs. -/
def testSelectList : List (SelectStruct Nat Nat) :=
  [⟨1, 0, (2, 2)⟩, ⟨3, 0, (2, 2)⟩, ⟨4, 1, (2, 2)⟩]

/-- Witness for runDataRef_selects_exactly at the concrete environment
(the patch hull of the empty coordinate list is some 0). -/
theorem runDataRef_selects_exactly_witness :
    runDataRef testSelEnv ⟨2, 0⟩ 1 [] testSelectList true =
      some ⟨some ((testSelectList.filter (isSelected testSelEnv ⟨2, 0⟩ 1 0)).map
          SelectStruct.dataRef),
        (testSelectList.filter (isSelected testSelEnv ⟨2, 0⟩ 1 0)).map (expInfoOf testSelEnv)⟩ :=
  runDataRef_selects_exactly testSelEnv ⟨2, 0⟩ 1 [] testSelectList 0 rfl

/-- Helper: enlarging the FWHM interval preserves a passing FWHM test. -/
theorem fwhmOk_mono (cfg1 cfg2 : MaxPsfWcsSelectImageConfig) (f : ℚ)
    (hmin : cfg2.minPsfFwhm ≤ cfg1.minPsfFwhm) (hmax : cfg1.maxPsfFwhm ≤ cfg2.maxPsfFwhm)
    (h : fwhmOk cfg1 f = true) : fwhmOk cfg2 f = true := by
  simp only [fwhmOk, gt_iff_lt, Bool.and_eq_true, decide_eq_true_eq] at h ⊢
  exact ⟨lt_of_lt_of_le h.1 hmax, lt_of_le_of_lt hmin h.2⟩

/-- Helper: enlarging the FWHM interval preserves selection. -/
theorem isSelected_mono (env : SelEnv Coord Vec Poly Wcs DataRef DataId)
    (cfg1 cfg2 : MaxPsfWcsSelectImageConfig) (fwhmFactor : ℚ) (patchPoly : Poly)
    (d : SelectStruct Wcs DataRef)
    (hmin : cfg2.minPsfFwhm ≤ cfg1.minPsfFwhm) (hmax : cfg1.maxPsfFwhm ≤ cfg2.maxPsfFwhm)
    (h : isSelected env cfg1 fwhmFactor patchPoly d = true) :
    isSelected env cfg2 fwhmFactor patchPoly d = true := by
  rw [isSelected_eq] at h ⊢
  simp only [Bool.and_eq_true] at h ⊢
  exact ⟨h.1, fwhmOk_mono cfg1 cfg2 _ hmin hmax h.2⟩

/-- C2: image selection is monotone in the FWHM bounds: when the interval
of cfg1 is contained in that of cfg2, every data reference selected
under cfg1 is selected under cfg2 (same environment, patch and
selection list). -/
theorem runDataRef_monotone (env : SelEnv Coord Vec Poly Wcs DataRef DataId)
    (cfg1 cfg2 : MaxPsfWcsSelectImageConfig) (fwhmFactor : ℚ) (coordList : List Coord)
    (l : List (SelectStruct Wcs DataRef)) (s1 s2 : Struct DataRef DataId Coord)
    (dl1 dl2 : List DataRef)
    (hmin : cfg2.minPsfFwhm ≤ cfg1.minPsfFwhm) (hmax : cfg1.maxPsfFwhm ≤ cfg2.maxPsfFwhm)
    (h1 : runDataRef env cfg1 fwhmFactor coordList l true = some s1)
    (h2 : runDataRef env cfg2 fwhmFactor coordList l true = some s2)
    (hd1 : s1.dataRefList = some dl1) (hd2 : s2.dataRefList = some dl2) :
    dl1 ⊆ dl2 := by
  cases hp : env.convexHull (coordList.map env.getVector) with
  | none =>
    simp only [runDataRef, hp, if_true] at h1
    by_cases hb : l.any (fun d => (imagePolyOf env d).isSome) = true
    · rw [if_pos hb] at h1
      exact absurd h1 (by simp)
    · rw [if_neg hb] at h1
      have hs1 : s1 = ⟨some [], []⟩ := (Option.some.inj h1).symm
      rw [hs1] at hd1
      have : dl1 = [] := (Option.some.inj hd1).symm
      rw [this]
      exact List.nil_subset dl2
  | some patchPoly =>
    rw [runDataRef_char env cfg1 fwhmFactor coordList l patchPoly true hp] at h1
    rw [runDataRef_char env cfg2 fwhmFactor coordList l patchPoly true hp] at h2
    simp only [if_true] at h1 h2
    have hs1 := (Option.some.inj h1).symm
    have hs2 := (Option.some.inj h2).symm
    rw [hs1] at hd1
    rw [hs2] at hd2
    have e1 : dl1 = (l.filter (isSelected env cfg1 fwhmFactor patchPoly)).map
        SelectStruct.dataRef := (Option.some.inj hd1).symm
    have e2 : dl2 = (l.filter (isSelected env cfg2 fwhmFactor patchPoly)).map
        SelectStruct.dataRef := (Option.some.inj hd2).symm
    rw [e1, e2]
    intro x hx
    simp only [List.mem_map, List.mem_filter] at hx ⊢
    obtain ⟨d, ⟨hdl, hsel⟩, hxd⟩ := hx
    exact ⟨d, ⟨hdl, isSelected_mono env cfg1 cfg2 fwhmFactor patchPoly d hmin hmax hsel⟩, hxd⟩

/-- Witness for runDataRef_monotone: under the narrow interval (0, 2) the
selection is [1], under the wide interval (0, 5) it is [1, 3]. -/
theorem runDataRef_monotone_witness : ([1] : List Nat) ⊆ [1, 3] :=
  runDataRef_monotone testSelEnv ⟨2, 0⟩ ⟨5, 0⟩ 1 [] testSelectList
    ⟨some [1], [⟨1, [0, 2, 4, 2]⟩]⟩ ⟨some [1, 3], [⟨1, [0, 2, 4, 2]⟩, ⟨3, [0, 2, 4, 2]⟩]⟩
    [1] [1, 3] (by decide) (by decide) (by with_unfolding_all rfl)
    (by with_unfolding_all rfl) rfl rfl

/-- C3: an image whose Wcs is degenerate (a corner raises in pixelToSky,
or its corners admit no convex hull) or whose footprint polygon does not
intersect the patch polygon is deselected without an exception:
removing it from selectDataList leaves the result unchanged, and the run
still completes. -/
theorem degenerate_excluded (env : SelEnv Coord Vec Poly Wcs DataRef DataId)
    (cfg : MaxPsfWcsSelectImageConfig) (fwhmFactor : ℚ) (coordList : List Coord)
    (patchPoly : Poly) (l1 l2 : List (SelectStruct Wcs DataRef))
    (d : SelectStruct Wcs DataRef) (mk : Bool)
    (hp : env.convexHull (coordList.map env.getVector) = some patchPoly)
    (hd : imagePolyOf env d = none ∨
      ∃ imagePoly, imagePolyOf env d = some imagePoly ∧
        env.intersects patchPoly imagePoly = false) :
    runDataRef env cfg fwhmFactor coordList (l1 ++ d :: l2) mk =
      runDataRef env cfg fwhmFactor coordList (l1 ++ l2) mk ∧
    (runDataRef env cfg fwhmFactor coordList (l1 ++ d :: l2) mk).isSome = true := by
  have hgeom : geomOk env patchPoly d = false := by
    rcases hd with h | ⟨ip, h, hi⟩
    · simp [geomOk, h]
    · simp [geomOk, h, hi]
  have hsel : isSelected env cfg fwhmFactor patchPoly d = false := by
    rw [isSelected_eq, hgeom, Bool.false_and]
  rw [runDataRef_char env cfg fwhmFactor coordList (l1 ++ d :: l2) patchPoly mk hp,
    runDataRef_char env cfg fwhmFactor coordList (l1 ++ l2) patchPoly mk hp]
  have hfil : (l1 ++ d :: l2).filter (isSelected env cfg fwhmFactor patchPoly) =
      (l1 ++ l2).filter (isSelected env cfg fwhmFactor patchPoly) := by
    simp [List.filter_append, List.filter_cons, hsel]
  rw [hfil]
  exact ⟨rfl, rfl⟩

/-- Witness for degenerate_excluded: the Wcs 1 image raises in pixelToSky
and is silently dropped. -/
theorem degenerate_excluded_witness :
    runDataRef testSelEnv ⟨2, 0⟩ 1 [] ([⟨1, 0, (2, 2)⟩] ++ ⟨4, 1, (2, 2)⟩ :: []) true =
      runDataRef testSelEnv ⟨2, 0⟩ 1 [] ([⟨1, 0, (2, 2)⟩] ++ []) true ∧
    (runDataRef testSelEnv ⟨2, 0⟩ 1 [] ([⟨1, 0, (2, 2)⟩] ++ ⟨4, 1, (2, 2)⟩ :: []) true).isSome
      = true :=
  degenerate_excluded testSelEnv ⟨2, 0⟩ 1 [] 0 [⟨1, 0, (2, 2)⟩] [] ⟨4, 1, (2, 2)⟩ true rfl
    (Or.inl (by decide))

/-- C6: the embedding of runDataRef is a pure function: two invocations
on the same coordinate list, selection list, flag and configuration,
against the same environment (hence the same underlying image data),
return equal results, and no state is carried between calls. -/
theorem runDataRef_deterministic (env : SelEnv Coord Vec Poly Wcs DataRef DataId)
    (cfg : MaxPsfWcsSelectImageConfig) (fwhmFactor : ℚ) (coordList : List Coord)
    (l : List (SelectStruct Wcs DataRef)) (mk : Bool) :
    runDataRef env cfg fwhmFactor coordList l mk =
      runDataRef env cfg fwhmFactor coordList l mk := rfl

/-- C9: the selected data references and exposure infos are two maps of
one sublist of selectDataList, so they have equal length and are
pairwise aligned in input order; dataRefList is some exactly when
makeDataRefList is true, while exposureInfoList is the same for both
flag values. -/
theorem runDataRef_aligned (env : SelEnv Coord Vec Poly Wcs DataRef DataId)
    (cfg : MaxPsfWcsSelectImageConfig) (fwhmFactor : ℚ) (coordList : List Coord)
    (l : List (SelectStruct Wcs DataRef)) (patchPoly : Poly) (mk : Bool)
    (hp : env.convexHull (coordList.map env.getVector) = some patchPoly) :
    (∃ sel : List (SelectStruct Wcs DataRef), sel.Sublist l ∧
      runDataRef env cfg fwhmFactor coordList l mk =
        some ⟨if mk then some (sel.map SelectStruct.dataRef) else none,
          sel.map (expInfoOf env)⟩ ∧
      (sel.map SelectStruct.dataRef).length = (sel.map (expInfoOf env)).length) ∧
    Option.map Struct.exposureInfoList (runDataRef env cfg fwhmFactor coordList l true) =
      Option.map Struct.exposureInfoList (runDataRef env cfg fwhmFactor coordList l false) := by
  constructor
  · exact ⟨l.filter (isSelected env cfg fwhmFactor patchPoly), List.filter_sublist l,
      runDataRef_char env cfg fwhmFactor coordList l patchPoly mk hp, by simp⟩
  · rw [runDataRef_char env cfg fwhmFactor coordList l patchPoly true hp,
      runDataRef_char env cfg fwhmFactor coordList l patchPoly false hp]
    rfl

/-- Witness for runDataRef_aligned: the exposure info list is the same
with and without makeDataRefList at the concrete environment. -/
theorem runDataRef_aligned_witness :
    Option.map Struct.exposureInfoList (runDataRef testSelEnv ⟨2, 0⟩ 1 [] testSelectList true) =
      Option.map Struct.exposureInfoList (runDataRef testSelEnv ⟨2, 0⟩ 1 [] testSelectList false) :=
  (runDataRef_aligned testSelEnv ⟨2, 0⟩ 1 [] testSelectList 0 false rfl).2

end SelectImages
